import Mathlib

/-!
Verification of the `remoted` signaling server
(`signaling-server/src/server.ts`), shallowly embedded in Lean 4.

Modelling conventions:
  * A WebSocket transport is identified by a `Nat` (JS object identity of
    `ws`); whether its `readyState` is OPEN at send time is an external
    predicate `isOpen : Nat → Bool` threaded through the handlers.
  * JS `Map` is a list of key/value pairs in insertion order; `Map.set` on
    an existing key updates in place, otherwise appends; `Map.delete`
    removes the entry; iteration is insertion order.
  * A possibly-`undefined` JS string is `Option String` (`none` =
    `undefined`); JS truthiness of a string (`s || default`) treats both
    `undefined` and `""` as falsy.
  * `Date.now()` is a `Nat` parameter `now` supplied per handled event.
  * Each handler returns the updated server state together with the list
    of `(transport, message)` sends it performed, in order.
-/

namespace Remoted

/-- `Device` record (shared/src/types.ts): the advertisement of a host.
Fields coming from the inbound message may be `undefined`. -/
structure Device where
  deviceId : Option String
  deviceName : Option String
  platform : Option String
  online : Bool
  lastSeen : Nat
  deriving DecidableEq, Repr

/-- Participant role: the `type: 'host' | 'client'` field of the server's
`Client` record. -/
inductive Role where
  | host
  | client
  deriving DecidableEq, Repr

/-- The server's per-participant `Client` record (server.ts lines 19-24). -/
structure Client where
  id : Option String
  ws : Nat
  type : Role
  device : Option Device
  deriving DecidableEq, Repr

/-- One wire message (shared/src/types.ts), used both inbound and
outbound.  `timestamp` is `Option Nat` because an inbound frame need not
carry one; the server sets it to `some now` on messages it constructs.
The opaque WebRTC payloads (`offer`, `answer`, `candidate`) are modelled
as `Option String`. -/
inductive Msg where
  | registerHost (timestamp : Option Nat) (deviceId deviceName platform : Option String)
  | registerClient (timestamp : Option Nat) (clientId : Option String)
  | getDevices (timestamp : Option Nat)
  | connectRequest (timestamp : Option Nat) (targetDeviceId clientId : Option String)
  | offer (timestamp : Option Nat) (sdp fromId toId : Option String)
  | answer (timestamp : Option Nat) (sdp fromId toId : Option String)
  | iceCandidate (timestamp : Option Nat) (candidate fromId toId : Option String)
  | disconnect (timestamp : Option Nat)
  | authSuccess (timestamp : Option Nat) (id : Option String)
  | deviceList (timestamp : Option Nat) (devices : List Device)
  | deviceOnline (timestamp : Option Nat) (device : Device)
  | deviceOffline (timestamp : Option Nat) (device : Device)
  | connectionAccepted (timestamp : Option Nat) (hostId : Option String)
  | error (timestamp : Option Nat) (err : String) (details : Option String)
  | unknown
  deriving DecidableEq, Repr

/-- The timestamp field of a message, when it has one. -/
def Msg.timestampOf : Msg → Option Nat
  | .registerHost ts _ _ _ => ts
  | .registerClient ts _ => ts
  | .getDevices ts => ts
  | .connectRequest ts _ _ => ts
  | .offer ts _ _ _ => ts
  | .answer ts _ _ _ => ts
  | .iceCandidate ts _ _ _ => ts
  | .disconnect ts => ts
  | .authSuccess ts _ => ts
  | .deviceList ts _ => ts
  | .deviceOnline ts _ => ts
  | .deviceOffline ts _ => ts
  | .connectionAccepted ts _ => ts
  | .error ts _ _ => ts
  | .unknown => none

/-- An inbound WebSocket frame: either text that fails `JSON.parse`
(the catch branch of the message handler) or a parsed message. -/
inductive Frame where
  | unparsable
  | msg (m : Msg)
  deriving DecidableEq, Repr

section JsMap

variable {κ α : Type} [DecidableEq κ]

/-- JS `Map.get`. -/
def mapGet (m : List (κ × α)) (k : κ) : Option α :=
  (m.find? (fun p => decide (p.1 = k))).map (·.2)

/-- JS `Map.set`: updates in place when the key is present (keeping its
position in insertion order), otherwise appends. -/
def mapSet (m : List (κ × α)) (k : κ) (v : α) : List (κ × α) :=
  if m.any (fun p => decide (p.1 = k)) then
    m.map (fun p => if p.1 = k then (k, v) else p)
  else
    m ++ [(k, v)]

/-- JS `Map.delete`. -/
def mapDelete (m : List (κ × α)) (k : κ) : List (κ × α) :=
  m.filter (fun p => decide (¬ p.1 = k))

end JsMap

/-- The mutable state of `SignalingServer`: the two maps, plus the state
of the fresh-id generator (see `uuidv4`). -/
structure ServerState where
  clients : List (Option String × Client)
  devices : List (Option String × Device)
  nextUuid : Nat
  deriving DecidableEq, Repr

/-- The empty state a `SignalingServer` starts in. -/
def ServerState.initial : ServerState :=
  { clients := [], devices := [], nextUuid := 0 }

/-- Modelled from the spec: `uuidv4` from the external `uuid` package
(not part of this repository's sources) is a generator of fresh,
non-empty client ids, unique within the process lifetime; modelled as a
deterministic injective generator indexed by a per-process counter
(`ServerState.nextUuid`), bumped at each call. -/
def uuidv4 (n : Nat) : String :=
  "uuid-" ++ String.mk (List.replicate n 'x')

/-- JS truthiness of an optional string: `undefined` and `""` are falsy
(`message.clientId || uuidv4()`). -/
def isFalsy : Option String → Bool
  | none => true
  | some s => decide (s = "")

/-- `send` (server.ts lines 281-285): emits the message on the transport
only when its `readyState` is OPEN. -/
def send (isOpen : Nat → Bool) (ws : Nat) (m : Msg) : List (Nat × Msg) :=
  if isOpen ws then [(ws, m)] else []

/-- `sendError` (server.ts lines 287-294). -/
def sendError (isOpen : Nat → Bool) (ws : Nat) (now : Nat)
    (err : String) (details : Option String) : List (Nat × Msg) :=
  send isOpen ws (Msg.error (some now) err details)

/-- `broadcastDeviceStatus` (server.ts lines 266-279): sends the status
message to every participant whose `type` is `'client'`, in map
iteration order.  `online` selects DEVICE_ONLINE vs DEVICE_OFFLINE. -/
def broadcastDeviceStatus (isOpen : Nat → Bool)
    (clients : List (Option String × Client)) (device : Device)
    (online : Bool) (now : Nat) : List (Nat × Msg) :=
  let m := if online then Msg.deviceOnline (some now) device
           else Msg.deviceOffline (some now) device
  clients.foldr
    (fun p acc =>
      (if p.2.type = Role.client then send isOpen p.2.ws m else []) ++ acc) []

/-- `handleRegisterHost` (server.ts lines 122-154). -/
def handleRegisterHost (isOpen : Nat → Bool) (st : ServerState) (ws : Nat)
    (deviceId deviceName platform : Option String) (now : Nat) :
    ServerState × List (Nat × Msg) :=
  let device : Device :=
    { deviceId := deviceId, deviceName := deviceName, platform := platform,
      online := true, lastSeen := now }
  let client : Client :=
    { id := deviceId, ws := ws, type := Role.host, device := some device }
  let st1 : ServerState :=
    { st with clients := mapSet st.clients deviceId client,
              devices := mapSet st.devices deviceId device }
  (st1,
    send isOpen ws (Msg.authSuccess (some now) deviceId) ++
      broadcastDeviceStatus isOpen st1.clients device true now)

/-- `handleRegisterClient` (server.ts lines 156-175):
`const clientId = message.clientId || uuidv4()`. -/
def handleRegisterClient (isOpen : Nat → Bool) (st : ServerState) (ws : Nat)
    (clientId : Option String) (now : Nat) : ServerState × List (Nat × Msg) :=
  let cid : String :=
    if isFalsy clientId then uuidv4 st.nextUuid else clientId.getD ""
  let next : Nat :=
    if isFalsy clientId then st.nextUuid + 1 else st.nextUuid
  let client : Client :=
    { id := some cid, ws := ws, type := Role.client, device := none }
  let st1 : ServerState :=
    { st with clients := mapSet st.clients (some cid) client, nextUuid := next }
  (st1, send isOpen ws (Msg.authSuccess (some now) (some cid)))

/-- `handleGetDevices` (server.ts lines 177-185): replies with the values
of the devices map. -/
def handleGetDevices (isOpen : Nat → Bool) (st : ServerState) (ws : Nat)
    (now : Nat) : ServerState × List (Nat × Msg) :=
  (st, send isOpen ws (Msg.deviceList (some now) (st.devices.map (·.2))))

/-- `handleConnectRequest` (server.ts lines 187-212). -/
def handleConnectRequest (isOpen : Nat → Bool) (st : ServerState) (ws : Nat)
    (targetDeviceId clientId : Option String) (now : Nat) :
    ServerState × List (Nat × Msg) :=
  match mapGet st.clients targetDeviceId with
  | none => (st, sendError isOpen ws now "Target device not found or offline" none)
  | some targetClient =>
    if targetClient.type ≠ Role.host then
      (st, sendError isOpen ws now "Target device not found or offline" none)
    else
      (st,
        send isOpen targetClient.ws
            (Msg.connectRequest (some now) targetDeviceId clientId) ++
          send isOpen ws (Msg.connectionAccepted (some now) targetDeviceId))

/-- `handleOffer` (server.ts lines 214-223): forwards the inbound message
verbatim to the transport registered for `message.to`; no-op if absent. -/
def handleOffer (isOpen : Nat → Bool) (st : ServerState)
    (timestamp : Option Nat) (sdp fromId toId : Option String) :
    ServerState × List (Nat × Msg) :=
  match mapGet st.clients toId with
  | some targetClient =>
    (st, send isOpen targetClient.ws (Msg.offer timestamp sdp fromId toId))
  | none => (st, [])

/-- `handleAnswer` (server.ts lines 225-234). -/
def handleAnswer (isOpen : Nat → Bool) (st : ServerState)
    (timestamp : Option Nat) (sdp fromId toId : Option String) :
    ServerState × List (Nat × Msg) :=
  match mapGet st.clients toId with
  | some targetClient =>
    (st, send isOpen targetClient.ws (Msg.answer timestamp sdp fromId toId))
  | none => (st, [])

/-- `handleIceCandidate` (server.ts lines 236-245). -/
def handleIceCandidate (isOpen : Nat → Bool) (st : ServerState)
    (timestamp : Option Nat) (candidate fromId toId : Option String) :
    ServerState × List (Nat × Msg) :=
  match mapGet st.clients toId with
  | some targetClient =>
    (st, send isOpen targetClient.ws (Msg.iceCandidate timestamp candidate fromId toId))
  | none => (st, [])

/-- `handleDisconnect` (server.ts lines 247-264): scans the clients map
in insertion order for the first entry whose transport is `ws`; if that
entry is a host with a device, broadcasts DEVICE_OFFLINE (with
`online := false`, `lastSeen := now`) and deletes the device; deletes the
client entry; `break` stops after the first match. -/
def handleDisconnect (isOpen : Nat → Bool) (st : ServerState) (ws : Nat)
    (now : Nat) : ServerState × List (Nat × Msg) :=
  match st.clients.find? (fun p => decide (p.2.ws = ws)) with
  | none => (st, [])
  | some (id, client) =>
    match client.type, client.device with
    | Role.host, some d =>
      let d1 : Device := { d with online := false, lastSeen := now }
      (( { st with clients := mapDelete st.clients id,
                   devices := mapDelete st.devices id } : ServerState),
        broadcastDeviceStatus isOpen st.clients d1 false now)
    | _, _ =>
      (( { st with clients := mapDelete st.clients id } : ServerState), [])

/-- `handleMessage` (server.ts lines 81-120): the dispatch switch.
Message types the server itself sends (AUTH_SUCCESS, …) and unknown
types hit the `default` branch and are ignored. -/
def handleMessage (isOpen : Nat → Bool) (st : ServerState) (ws : Nat)
    (m : Msg) (now : Nat) : ServerState × List (Nat × Msg) :=
  match m with
  | Msg.registerHost _ deviceId deviceName platform =>
    handleRegisterHost isOpen st ws deviceId deviceName platform now
  | Msg.registerClient _ clientId =>
    handleRegisterClient isOpen st ws clientId now
  | Msg.getDevices _ => handleGetDevices isOpen st ws now
  | Msg.connectRequest _ targetDeviceId clientId =>
    handleConnectRequest isOpen st ws targetDeviceId clientId now
  | Msg.offer ts sdp fromId toId => handleOffer isOpen st ts sdp fromId toId
  | Msg.answer ts sdp fromId toId => handleAnswer isOpen st ts sdp fromId toId
  | Msg.iceCandidate ts cand fromId toId =>
    handleIceCandidate isOpen st ts cand fromId toId
  | Msg.disconnect _ => handleDisconnect isOpen st ws now
  | _ => (st, [])

/-- The per-frame message handler (server.ts lines 61-69): `JSON.parse`
failure is caught and answered with ERROR "Invalid message format";
parsed messages go to `handleMessage`. -/
def handleFrame (isOpen : Nat → Bool) (st : ServerState) (ws : Nat)
    (f : Frame) (now : Nat) : ServerState × List (Nat × Msg) :=
  match f with
  | Frame.unparsable => (st, sendError isOpen ws now "Invalid message format" none)
  | Frame.msg m => handleMessage isOpen st ws m now

/-- An externally observable event: an inbound frame on a transport, or
a transport close (`ws.on('close')`), each with the `Date.now()` value
at which the server handles it. -/
inductive Event where
  | frame (ws : Nat) (f : Frame) (now : Nat)
  | closed (ws : Nat) (now : Nat)
  deriving DecidableEq, Repr

/-- One step of the server: dispatch one event. -/
def step (isOpen : Nat → Bool) (st : ServerState) (e : Event) :
    ServerState × List (Nat × Msg) :=
  match e with
  | Event.frame ws f now => handleFrame isOpen st ws f now
  | Event.closed ws now => handleDisconnect isOpen st ws now

/-- Run a sequence of events, collecting all sends in order. -/
def run (isOpen : Nat → Bool) (st : ServerState) :
    List Event → ServerState × List (Nat × Msg)
  | [] => (st, [])
  | e :: es =>
    let r := step isOpen st e
    let r1 := run isOpen r.1 es
    (r1.1, r.2 ++ r1.2)

/-- The id a REGISTER_CLIENT ends up registered under:
`message.clientId || uuidv4()`. -/
def resolvedClientId (st : ServerState) (clientId : Option String) : String :=
  if isFalsy clientId then uuidv4 st.nextUuid else clientId.getD ""

/-- Recognizer for AUTH_SUCCESS messages. -/
def isAuthSuccess : Msg → Bool
  | Msg.authSuccess _ _ => true
  | _ => false

/-- Both maps have pairwise-distinct keys (JS `Map` guarantees this; it
is an invariant of the embedding's list representation). -/
def KeysNodup (st : ServerState) : Prop :=
  (st.clients.map (·.1)).Nodup ∧ (st.devices.map (·.1)).Nodup

/-- The Registry/Device invariant of the spec: every entry of the
devices map is online, keyed by its own `deviceId`, and backed by
exactly one registered participant with role HOST, the same id, and the
same denormalized device record. -/
def DeviceHostInv (st : ServerState) : Prop :=
  ∀ k d, mapGet st.devices k = some d →
    d.online = true ∧ d.deviceId = k ∧
    ∃ c, mapGet st.clients k = some c ∧ c.type = Role.host ∧ c.id = k ∧
      c.device = some d

/-- Guard singling out the one operation that breaks `DeviceHostInv` in
the source: a REGISTER_CLIENT whose resolved id is currently a key of
the devices map (i.e. an id registered as a HOST). -/
def NoHostIdTakeoverByClient (st : ServerState) : Event → Prop
  | Event.frame _ (Frame.msg (Msg.registerClient _ cid)) _ =>
    mapGet st.devices (some (resolvedClientId st cid)) = none
  | _ => True

/-- The fresh ids generated by one event (empty unless the event is a
REGISTER_CLIENT with a falsy `clientId`, which calls `uuidv4`). -/
def stepGen (st : ServerState) : Event → List String
  | Event.frame _ (Frame.msg (Msg.registerClient _ cid)) _ =>
    if isFalsy cid then [uuidv4 st.nextUuid] else []
  | _ => []

/-- All fresh ids generated along a run, in order. -/
def runGenIds (isOpen : Nat → Bool) (st : ServerState) :
    List Event → List String
  | [] => []
  | e :: es => stepGen st e ++ runGenIds isOpen (step isOpen st e).1 es

/-! ### Concrete scenario states (for witnesses and counterexamples) -/

/-- Scenario: the device record host "h1" registers at time 0. -/
def devH1 : Device :=
  { deviceId := some "h1", deviceName := some "Office-PC",
    platform := some "macos", online := true, lastSeen := 0 }

/-- Scenario: host "h1" on transport 5. -/
def hostClient1 : Client :=
  { id := some "h1", ws := 5, type := Role.host, device := some devH1 }

/-- Scenario: client "c1" on transport 7. -/
def clientC1 : Client :=
  { id := some "c1", ws := 7, type := Role.client, device := none }

/-- Scenario state: host "h1" (transport 5) and client "c1"
(transport 7) registered. -/
def stHostClient : ServerState :=
  { clients := [(some "h1", hostClient1), (some "c1", clientC1)],
    devices := [(some "h1", devH1)], nextUuid := 0 }

/-- Scenario state: one transport (7) registered under two distinct
client ids "c1" and "c2". -/
def stTwoIds : ServerState :=
  { clients :=
      [(some "c1", { id := some "c1", ws := 7, type := Role.client, device := none }),
       (some "c2", { id := some "c2", ws := 7, type := Role.client, device := none })],
    devices := [], nextUuid := 0 }

/-- Scenario run: host "h1" registers on transport 1, then a
REGISTER_CLIENT on transport 2 reuses the id "h1" (self-asserted id
takeover). -/
def takeoverState : ServerState :=
  (run (fun _ => true) ServerState.initial
    [Event.frame 1 (Frame.msg (Msg.registerHost (some 0) (some "h1")
        (some "Office-PC") (some "macos"))) 0,
     Event.frame 2 (Frame.msg (Msg.registerClient (some 1) (some "h1"))) 1]).1

/-! ### Lemmas about the JS `Map` model -/

section JsMapLemmas

variable {κ α : Type} [DecidableEq κ]

theorem mapGet_nil (k : κ) : mapGet ([] : List (κ × α)) k = none := rfl

theorem mapGet_cons (a : κ × α) (t : List (κ × α)) (k : κ) :
    mapGet (a :: t) k = if a.1 = k then some a.2 else mapGet t k := by
  by_cases h : a.1 = k <;> simp [mapGet, List.find?_cons, h]

theorem mapSet_nil (k : κ) (v : α) :
    mapSet ([] : List (κ × α)) k v = [(k, v)] := by
  simp [mapSet]

theorem mapSet_cons_ne (a : κ) (b : α) (t : List (κ × α)) (k : κ) (v : α)
    (h : ¬ a = k) : mapSet ((a, b) :: t) k v = (a, b) :: mapSet t k v := by
  by_cases ht : t.any (fun p => decide (p.1 = k)) <;>
    simp [mapSet, h, ht]

theorem mapSet_cons_eq (b : α) (t : List (κ × α)) (k : κ) (v : α) :
    mapSet ((k, b) :: t) k v
      = (k, v) :: t.map (fun p => if p.1 = k then (k, v) else p) := by
  simp [mapSet]

theorem mapGet_map_setFn_ne (t : List (κ × α)) (k k' : κ) (v : α)
    (h : ¬ k' = k) :
    mapGet (t.map (fun p => if p.1 = k then (k, v) else p)) k'
      = mapGet t k' := by
  induction t with
  | nil => rfl
  | cons a t ih =>
    by_cases ha : a.1 = k
    · have hk : ¬ (k = k') := fun hh => h hh.symm
      have ha' : ¬ (a.1 = k') := by
        intro hh; exact h (hh.symm.trans ha)
      simp [mapGet_cons, ha, hk, ha', ih]
    · by_cases ha' : a.1 = k'
      · simp [mapGet_cons, ha, ha', h]
      · simp [mapGet_cons, ha, ha', ih]

theorem mapGet_mapSet (m : List (κ × α)) (k k' : κ) (v : α) :
    mapGet (mapSet m k v) k' = if k' = k then some v else mapGet m k' := by
  induction m with
  | nil =>
    by_cases h : k' = k
    · simp [mapSet_nil, mapGet_cons, h]
    · have : ¬ (k = k') := fun hh => h hh.symm
      simp [mapSet_nil, mapGet_cons, h, this]
  | cons a t ih =>
    obtain ⟨a1, a2⟩ := a
    by_cases ha : a1 = k
    · subst ha
      by_cases h : k' = a1
      · subst h
        simp [mapSet_cons_eq, mapGet_cons]
      · have : ¬ (a1 = k') := fun hh => h hh.symm
        simp [mapSet_cons_eq, mapGet_cons, this, h,
          mapGet_map_setFn_ne t a1 k' v h]
    · rw [mapSet_cons_ne a1 a2 t k v ha]
      by_cases h' : a1 = k'
      · subst h'
        simp [mapGet_cons, ha]
      · simp [mapGet_cons, h', ih]

theorem mapGet_mapSet_self (m : List (κ × α)) (k : κ) (v : α) :
    mapGet (mapSet m k v) k = some v := by
  simp [mapGet_mapSet]

theorem mapGet_mapSet_ne (m : List (κ × α)) (k k' : κ) (v : α)
    (h : ¬ k' = k) : mapGet (mapSet m k v) k' = mapGet m k' := by
  simp [mapGet_mapSet, h]

theorem mapGet_mapDelete (m : List (κ × α)) (k k' : κ) :
    mapGet (mapDelete m k) k' = if k' = k then none else mapGet m k' := by
  induction m with
  | nil =>
    by_cases h : k' = k <;> simp [mapDelete, mapGet_nil, h]
  | cons a t ih =>
    by_cases ha : a.1 = k
    · have : mapDelete (a :: t) k = mapDelete t k := by
        simp [mapDelete, List.filter_cons, ha]
      rw [this, ih]
      by_cases h : k' = k
      · simp [h]
      · have ha' : ¬ (a.1 = k') := fun hh => h (hh.symm.trans ha)
        simp [h, mapGet_cons, ha']
    · have : mapDelete (a :: t) k = a :: mapDelete t k := by
        simp [mapDelete, List.filter_cons, ha]
      rw [this]
      by_cases h' : a.1 = k'
      · have hk : ¬ (k' = k) := fun hh => ha (h'.trans hh)
        simp [mapGet_cons, h', hk]
      · simp [mapGet_cons, h', ih]

theorem mapGet_mapDelete_self (m : List (κ × α)) (k : κ) :
    mapGet (mapDelete m k) k = none := by
  simp [mapGet_mapDelete]

theorem mapGet_mapDelete_ne (m : List (κ × α)) (k k' : κ) (h : ¬ k' = k) :
    mapGet (mapDelete m k) k' = mapGet m k' := by
  simp [mapGet_mapDelete, h]

theorem mapGet_of_mem_nodup (m : List (κ × α)) (k : κ) (v : α)
    (hm : (k, v) ∈ m) (hnd : (m.map (·.1)).Nodup) : mapGet m k = some v := by
  induction m with
  | nil => cases hm
  | cons a t ih =>
    rcases List.mem_cons.mp hm with h | h
    · subst h
      simp [mapGet_cons]
    · have hk : ¬ (a.1 = k) := by
        intro hh
        have : k ∈ t.map (·.1) := List.mem_map.mpr ⟨(k, v), h, rfl⟩
        rw [List.map_cons, List.nodup_cons] at hnd
        exact hnd.1 (hh ▸ this)
      have hnd' : (t.map (·.1)).Nodup := by
        rw [List.map_cons, List.nodup_cons] at hnd
        exact hnd.2
      simp [mapGet_cons, hk, ih h hnd']

theorem nodup_keys_mapSet (m : List (κ × α)) (k : κ) (v : α)
    (h : (m.map (·.1)).Nodup) : ((mapSet m k v).map (·.1)).Nodup := by
  unfold mapSet
  by_cases hc : m.any (fun p => decide (p.1 = k)) = true
  · have hkeys : ((m.map (fun p => if p.1 = k then (k, v) else p)).map (·.1))
        = m.map (·.1) := by
      rw [List.map_map]
      refine List.map_congr_left ?_
      intro p _
      by_cases hp : p.1 = k <;> simp [hp]
    rw [if_pos hc, hkeys]
    exact h
  · rw [if_neg hc, List.map_append, List.nodup_append]
    refine ⟨h, List.nodup_singleton _, ?_⟩
    intro x hx hx'
    simp at hx'
    subst hx'
    rcases List.mem_map.mp hx with ⟨p, hp, hpk⟩
    rw [List.any_eq_true] at hc
    exact hc ⟨p, hp, by simp [hpk]⟩

theorem nodup_keys_mapDelete (m : List (κ × α)) (k : κ)
    (h : (m.map (·.1)).Nodup) : ((mapDelete m k).map (·.1)).Nodup := by
  have hsub : (mapDelete m k).Sublist m := List.filter_sublist m
  exact (hsub.map (·.1)).nodup h

end JsMapLemmas

/-! ### Helper lemmas about sends, broadcasts and the id generator -/

theorem send_of_open (isOpen : Nat → Bool) (ws : Nat) (m : Msg)
    (h : isOpen ws = true) : send isOpen ws m = [(ws, m)] := by
  simp [send, h]

theorem mem_send (isOpen : Nat → Bool) (ws : Nat) (m : Msg)
    (out : Nat × Msg) (hm : out ∈ send isOpen ws m) : out = (ws, m) := by
  unfold send at hm
  by_cases h : isOpen ws = true <;> simp [h] at hm
  exact hm

theorem broadcastDeviceStatus_nil (isOpen : Nat → Bool) (dev : Device)
    (b : Bool) (now : Nat) : broadcastDeviceStatus isOpen [] dev b now = [] :=
  rfl

theorem broadcastDeviceStatus_cons (isOpen : Nat → Bool)
    (a : Option String × Client) (t : List (Option String × Client))
    (dev : Device) (b : Bool) (now : Nat) :
    broadcastDeviceStatus isOpen (a :: t) dev b now
      = (if a.2.type = Role.client then
          send isOpen a.2.ws
            (if b then Msg.deviceOnline (some now) dev
             else Msg.deviceOffline (some now) dev)
         else []) ++ broadcastDeviceStatus isOpen t dev b now := by
  simp [broadcastDeviceStatus]

theorem broadcastDeviceStatus_eq (isOpen : Nat → Bool)
    (cls : List (Option String × Client)) (dev : Device) (b : Bool)
    (now : Nat) (h : ∀ w, isOpen w = true) :
    broadcastDeviceStatus isOpen cls dev b now
      = (cls.filter (fun p => decide (p.2.type = Role.client))).map
          (fun p => (p.2.ws,
            if b then Msg.deviceOnline (some now) dev
            else Msg.deviceOffline (some now) dev)) := by
  induction cls with
  | nil => rfl
  | cons a t ih =>
    rw [broadcastDeviceStatus_cons, ih]
    by_cases ha : a.2.type = Role.client
    · simp [List.filter_cons, ha, send, h a.2.ws]
    · simp [List.filter_cons, ha]

theorem mem_broadcastDeviceStatus (isOpen : Nat → Bool)
    (cls : List (Option String × Client)) (dev : Device) (b : Bool)
    (now : Nat) (out : Nat × Msg)
    (hm : out ∈ broadcastDeviceStatus isOpen cls dev b now) :
    out.2 = (if b then Msg.deviceOnline (some now) dev
             else Msg.deviceOffline (some now) dev) := by
  induction cls with
  | nil => cases hm
  | cons a t ih =>
    rw [broadcastDeviceStatus_cons] at hm
    rcases List.mem_append.mp hm with h1 | h2
    · by_cases ha : a.2.type = Role.client
      · rw [if_pos ha] at h1
        have := mem_send _ _ _ _ h1
        rw [this]
      · rw [if_neg ha] at h1
        cases h1
    · exact ih h2

theorem uuidv4_length (n : Nat) : (uuidv4 n).length = 5 + n := by
  simp [uuidv4, String.length_append, String.length]
  omega

theorem uuidv4_injective {m n : Nat} (h : uuidv4 m = uuidv4 n) : m = n := by
  have := congrArg String.length h
  rw [uuidv4_length, uuidv4_length] at this
  omega

theorem uuidv4_ne_empty (n : Nat) : uuidv4 n ≠ "" := by
  intro h
  have := congrArg String.length h
  rw [uuidv4_length] at this
  simp [String.length] at this

/-! ### State-preservation lemmas for the pure handlers -/

theorem handleConnectRequest_state (isOpen : Nat → Bool) (st : ServerState)
    (ws : Nat) (target cid : Option String) (now : Nat) :
    (handleConnectRequest isOpen st ws target cid now).1 = st := by
  unfold handleConnectRequest
  split
  · rfl
  · split <;> rfl

theorem handleOffer_state (isOpen : Nat → Bool) (st : ServerState)
    (ts : Option Nat) (p f t : Option String) :
    (handleOffer isOpen st ts p f t).1 = st := by
  unfold handleOffer
  split <;> rfl

theorem handleAnswer_state (isOpen : Nat → Bool) (st : ServerState)
    (ts : Option Nat) (p f t : Option String) :
    (handleAnswer isOpen st ts p f t).1 = st := by
  unfold handleAnswer
  split <;> rfl

theorem handleIceCandidate_state (isOpen : Nat → Bool) (st : ServerState)
    (ts : Option Nat) (p f t : Option String) :
    (handleIceCandidate isOpen st ts p f t).1 = st := by
  unfold handleIceCandidate
  split <;> rfl

/-! ### Claim C1 -/

theorem deviceHostInv_set (st : ServerState) (kId : Option String)
    (dev : Device) (c : Client) (hinv : DeviceHostInv st)
    (honline : dev.online = true) (hdevid : dev.deviceId = kId)
    (hctype : c.type = Role.host) (hcid : c.id = kId)
    (hcdev : c.device = some dev) :
    DeviceHostInv { st with clients := mapSet st.clients kId c,
                            devices := mapSet st.devices kId dev } := by
  intro k d hget
  have hget' : mapGet (mapSet st.devices kId dev) k = some d := hget
  rw [mapGet_mapSet] at hget'
  by_cases hk : k = kId
  · rw [if_pos hk] at hget'
    have hd := Option.some.inj hget'
    subst hd
    subst hk
    refine ⟨honline, hdevid, c, ?_, hctype, hcid, hcdev⟩
    show mapGet (mapSet st.clients k c) k = some c
    exact mapGet_mapSet_self _ _ _
  · rw [if_neg hk] at hget'
    rcases hinv k d hget' with ⟨h1, h2, c', hc', h3, h4, h5⟩
    refine ⟨h1, h2, c', ?_, h3, h4, h5⟩
    show mapGet (mapSet st.clients kId c) k = some c'
    rw [mapGet_mapSet_ne _ _ _ _ hk]
    exact hc'

theorem invNodup_registerHost (isOpen : Nat → Bool) (st : ServerState)
    (ws : Nat) (dId dn pl : Option String) (now : Nat)
    (hnd : KeysNodup st) (hinv : DeviceHostInv st) :
    KeysNodup (handleRegisterHost isOpen st ws dId dn pl now).1 ∧
    DeviceHostInv (handleRegisterHost isOpen st ws dId dn pl now).1 := by
  constructor
  · exact ⟨nodup_keys_mapSet _ _ _ hnd.1, nodup_keys_mapSet _ _ _ hnd.2⟩
  · exact deviceHostInv_set st dId
      { deviceId := dId, deviceName := dn, platform := pl,
        online := true, lastSeen := now }
      { id := dId, ws := ws, type := Role.host,
        device := some { deviceId := dId, deviceName := dn, platform := pl,
                         online := true, lastSeen := now } }
      hinv rfl rfl rfl rfl rfl

theorem deviceHostInv_setClient (st : ServerState) (cidv : String)
    (c : Client) (n : Nat) (hinv : DeviceHostInv st)
    (hguard : mapGet st.devices (some cidv) = none) :
    DeviceHostInv { st with clients := mapSet st.clients (some cidv) c,
                            nextUuid := n } := by
  intro k d hget
  have hget' : mapGet st.devices k = some d := hget
  rcases hinv k d hget' with ⟨h1, h2, c', hc', h3, h4, h5⟩
  have hk : ¬ k = some cidv := by
    intro hh
    rw [hh, hguard] at hget'
    cases hget'
  refine ⟨h1, h2, c', ?_, h3, h4, h5⟩
  show mapGet (mapSet st.clients (some cidv) c) k = some c'
  rw [mapGet_mapSet_ne _ _ _ _ hk]
  exact hc'

theorem invNodup_registerClient (isOpen : Nat → Bool) (st : ServerState)
    (ws : Nat) (cid : Option String) (now : Nat)
    (hnd : KeysNodup st) (hinv : DeviceHostInv st)
    (hguard : mapGet st.devices (some (resolvedClientId st cid)) = none) :
    KeysNodup (handleRegisterClient isOpen st ws cid now).1 ∧
    DeviceHostInv (handleRegisterClient isOpen st ws cid now).1 := by
  constructor
  · exact ⟨nodup_keys_mapSet _ _ _ hnd.1, hnd.2⟩
  · exact deviceHostInv_setClient st (resolvedClientId st cid) _ _ hinv hguard

theorem invNodup_disconnect (isOpen : Nat → Bool) (st : ServerState)
    (w now : Nat) (hnd : KeysNodup st) (hinv : DeviceHostInv st) :
    KeysNodup (handleDisconnect isOpen st w now).1 ∧
    DeviceHostInv (handleDisconnect isOpen st w now).1 := by
  unfold handleDisconnect
  split
  · exact ⟨hnd, hinv⟩
  · rename_i id1 c1 heq
    have hmem := List.mem_of_find?_eq_some heq
    split
    · constructor
      · exact ⟨nodup_keys_mapDelete _ _ hnd.1, nodup_keys_mapDelete _ _ hnd.2⟩
      · intro k d' hget
        have hget' : mapGet (mapDelete st.devices id1) k = some d' := hget
        have hk : ¬ k = id1 := by
          intro hh
          subst hh
          rw [mapGet_mapDelete_self] at hget'
          cases hget'
        rw [mapGet_mapDelete_ne _ _ _ hk] at hget'
        rcases hinv k d' hget' with ⟨h1, h2, c', hc', h3, h4, h5⟩
        refine ⟨h1, h2, c', ?_, h3, h4, h5⟩
        show mapGet (mapDelete st.clients id1) k = some c'
        rw [mapGet_mapDelete_ne _ _ _ hk]
        exact hc'
    · rename_i hnotHost
      constructor
      · exact ⟨nodup_keys_mapDelete _ _ hnd.1, hnd.2⟩
      · intro k d' hget
        have hget' : mapGet st.devices k = some d' := hget
        rcases hinv k d' hget' with ⟨h1, h2, c', hc', h3, h4, h5⟩
        have hk : ¬ k = id1 := by
          intro hh
          subst hh
          have h6 : mapGet st.clients k = some c1 :=
            mapGet_of_mem_nodup _ _ _ hmem hnd.1
          rw [h6] at hc'
          have h7 := Option.some.inj hc'
          exact hnotHost d' (by rw [h7]; exact h3) (by rw [h7]; exact h5)
        refine ⟨h1, h2, c', ?_, h3, h4, h5⟩
        show mapGet (mapDelete st.clients id1) k = some c'
        rw [mapGet_mapDelete_ne _ _ _ hk]
        exact hc'

/-- C1 counterexample: after host "h1" registers and a REGISTER_CLIENT
reuses the id "h1" (takeover), the devices map still holds an
`online = true` device for "h1" while the registered participant with
that id now has role CLIENT — the reachable state violates the
Registry/Device invariant that the claim asserts is preserved by every
operation. -/
theorem registry_invariant_client_takeover_cex :
    ¬ DeviceHostInv takeoverState := by
  intro h
  rcases h (some "h1") devH1 (by decide) with ⟨_, _, c, hc, htype, _⟩
  have hcc : mapGet takeoverState.clients (some "h1")
      = some { id := some "h1", ws := 2, type := Role.client,
               device := none } := by decide
  rw [hcc] at hc
  rw [← Option.some.inj hc] at htype
  nomatch htype

/-- C1 (amended): the Registry/Device invariant — every device in the
devices map is online, keyed by its own id, and backed by exactly one
registered HOST participant with the same id and the same device record
(so the devices map holds online hosts only) — is preserved, together
with key-uniqueness of both maps, by every operation of the server
EXCEPT a REGISTER_CLIENT whose (resolved) id is currently registered as
a HOST: such a client takeover replaces the participant but leaves the
host's device entry orphaned, breaking the invariant (see the
counterexample). Host disconnect and host-id takeover by REGISTER_HOST
do preserve it. -/
theorem registry_invariant_preserved_amended (isOpen : Nat → Bool)
    (st : ServerState) (e : Event) (hnd : KeysNodup st)
    (hinv : DeviceHostInv st) (hguard : NoHostIdTakeoverByClient st e) :
    KeysNodup (step isOpen st e).1 ∧ DeviceHostInv (step isOpen st e).1 := by
  rcases e with ⟨ws, f, now⟩ | ⟨ws, now⟩
  · cases f with
    | unparsable => exact ⟨hnd, hinv⟩
    | msg m =>
      cases m with
      | registerHost ts dId dn pl =>
        exact invNodup_registerHost isOpen st ws dId dn pl now hnd hinv
      | registerClient ts cid =>
        exact invNodup_registerClient isOpen st ws cid now hnd hinv hguard
      | getDevices ts => exact ⟨hnd, hinv⟩
      | connectRequest ts target cid =>
        have hs : (step isOpen st (Event.frame ws
            (Frame.msg (Msg.connectRequest ts target cid)) now)).1 = st :=
          handleConnectRequest_state isOpen st ws target cid now
        rw [hs]
        exact ⟨hnd, hinv⟩
      | offer ts p fr t =>
        have hs : (step isOpen st (Event.frame ws
            (Frame.msg (Msg.offer ts p fr t)) now)).1 = st :=
          handleOffer_state isOpen st ts p fr t
        rw [hs]
        exact ⟨hnd, hinv⟩
      | answer ts p fr t =>
        have hs : (step isOpen st (Event.frame ws
            (Frame.msg (Msg.answer ts p fr t)) now)).1 = st :=
          handleAnswer_state isOpen st ts p fr t
        rw [hs]
        exact ⟨hnd, hinv⟩
      | iceCandidate ts p fr t =>
        have hs : (step isOpen st (Event.frame ws
            (Frame.msg (Msg.iceCandidate ts p fr t)) now)).1 = st :=
          handleIceCandidate_state isOpen st ts p fr t
        rw [hs]
        exact ⟨hnd, hinv⟩
      | disconnect ts => exact invNodup_disconnect isOpen st ws now hnd hinv
      | authSuccess ts i => exact ⟨hnd, hinv⟩
      | deviceList ts ds => exact ⟨hnd, hinv⟩
      | deviceOnline ts dv => exact ⟨hnd, hinv⟩
      | deviceOffline ts dv => exact ⟨hnd, hinv⟩
      | connectionAccepted ts hI => exact ⟨hnd, hinv⟩
      | error ts er dt => exact ⟨hnd, hinv⟩
      | unknown => exact ⟨hnd, hinv⟩
  · exact invNodup_disconnect isOpen st ws now hnd hinv

theorem deviceHostInv_stHostClient : DeviceHostInv stHostClient := by
  intro k d hkd
  rw [show stHostClient.devices = [(some "h1", devH1)] from rfl,
    mapGet_cons] at hkd
  by_cases hk : (some "h1" : Option String) = k
  · rw [if_pos hk] at hkd
    subst hk
    have hd := Option.some.inj hkd
    subst hd
    exact ⟨rfl, rfl, hostClient1, by decide, rfl, rfl, rfl⟩
  · rw [if_neg hk] at hkd
    rw [mapGet_nil] at hkd
    cases hkd

/-- Witness for `registry_invariant_preserved_amended`: the invariant
holds at `stHostClient` and is preserved when host "h1"'s transport
closes. -/
theorem registry_invariant_preserved_amended_witness :
    KeysNodup (step (fun _ => true) stHostClient (Event.closed 5 3)).1 ∧
    DeviceHostInv (step (fun _ => true) stHostClient (Event.closed 5 3)).1 :=
  registry_invariant_preserved_amended (fun _ => true) stHostClient
    (Event.closed 5 3) (by constructor <;> decide)
    deviceHostInv_stHostClient trivial

/-! ### Claim C2 -/

/-- C2 counterexample: a frame that parses but fails the schema of its
declared type — a REGISTER_HOST with no `deviceId` (nor name/platform) —
is NOT answered with ERROR "Invalid message format": the server replies
AUTH_SUCCESS and mutates the registry (it registers a participant and a
device under the `undefined` key). -/
theorem malformed_schema_no_error_cex :
    (handleFrame (fun _ => true) ServerState.initial 3
        (Frame.msg (Msg.registerHost none none none none)) 42).2
      = [(3, Msg.authSuccess (some 42) none)] ∧
    (handleFrame (fun _ => true) ServerState.initial 3
        (Frame.msg (Msg.registerHost none none none none)) 42).1.clients ≠ [] := by
  constructor
  · rfl
  · decide

/-- C2 (amended): only frames that fail to parse are rejected — for
every unparsable frame the server replies, to the originating transport
only, with exactly one ERROR "Invalid message format", leaves the whole
registry state unchanged, and keeps handling (no crash, no close);
frames that parse but fail their type's schema are instead dispatched to
the normal handler with the missing fields as `undefined`. -/
theorem unparsable_frame_error_reply (isOpen : Nat → Bool)
    (st : ServerState) (ws now : Nat) (h : isOpen ws = true) :
    handleFrame isOpen st ws Frame.unparsable now
      = (st, [(ws, Msg.error (some now) "Invalid message format" none)]) := by
  simp [handleFrame, sendError, send, h]

/-- Witness for `unparsable_frame_error_reply`. -/
theorem unparsable_frame_error_reply_witness :
    handleFrame (fun _ => true) ServerState.initial 1 Frame.unparsable 7
      = (ServerState.initial,
          [(1, Msg.error (some 7) "Invalid message format" none)]) :=
  unparsable_frame_error_reply (fun _ => true) ServerState.initial 1 7 rfl

/-! ### Claim C3 -/

/-- C3: a CONNECT_REQUEST whose target is absent from the registry, or
registered with a role other than HOST, is answered with exactly one
ERROR "Target device not found or offline" and nothing is forwarded;
otherwise exactly one CONNECT_REQUEST with the same `targetDeviceId` and
`clientId` goes to the target host's transport and the requester gets
exactly one CONNECTION_ACCEPTED with `hostId = targetDeviceId`,
unconditionally. -/
theorem connect_request_spec (isOpen : Nat → Bool) (st : ServerState)
    (ws : Nat) (target cid : Option String) (now : Nat)
    (hAll : ∀ w, isOpen w = true) :
    ((∀ tc, mapGet st.clients target = some tc → tc.type ≠ Role.host) →
       handleConnectRequest isOpen st ws target cid now
         = (st, [(ws, Msg.error (some now)
             "Target device not found or offline" none)])) ∧
    (∀ tc, mapGet st.clients target = some tc → tc.type = Role.host →
       handleConnectRequest isOpen st ws target cid now
         = (st, [(tc.ws, Msg.connectRequest (some now) target cid),
                 (ws, Msg.connectionAccepted (some now) target)])) := by
  constructor
  · intro h
    cases hget : mapGet st.clients target with
    | none => simp [handleConnectRequest, hget, sendError, send, hAll ws]
    | some tc =>
      have htc := h tc hget
      simp [handleConnectRequest, hget, htc, sendError, send, hAll ws]
  · intro tc hget htype
    simp [handleConnectRequest, hget, htype, send, hAll]

/-- Witness for `connect_request_spec`: both branches at concrete
states. -/
theorem connect_request_spec_witness :
    (handleConnectRequest (fun _ => true) ServerState.initial 2
        (some "nope") (some "c1") 9
      = (ServerState.initial,
          [(2, Msg.error (some 9) "Target device not found or offline" none)])) ∧
    (handleConnectRequest (fun _ => true) stHostClient 7
        (some "h1") (some "c1") 9
      = (stHostClient,
          [(5, Msg.connectRequest (some 9) (some "h1") (some "c1")),
           (7, Msg.connectionAccepted (some 9) (some "h1"))])) := by
  constructor
  · exact (connect_request_spec (fun _ => true) ServerState.initial 2
      (some "nope") (some "c1") 9 (fun _ => rfl)).1 (fun tc h => nomatch h)
  · exact (connect_request_spec (fun _ => true) stHostClient 7
      (some "h1") (some "c1") 9 (fun _ => rfl)).2 hostClient1 (by decide) rfl

/-! ### Claim C4 -/

/-- C4: an OFFER, ANSWER, or ICE_CANDIDATE whose `to` field names a
registered participant is delivered to that participant's transport with
identical payload fields (forwarded unmodified); when `to` is not
registered no message goes to anyone (in particular no error to the
sender) and the state is unchanged. -/
theorem signaling_forward_spec (isOpen : Nat → Bool) (st : ServerState)
    (ts : Option Nat) (payload fromId toId : Option String)
    (hAll : ∀ w, isOpen w = true) :
    (∀ tc, mapGet st.clients toId = some tc →
       handleOffer isOpen st ts payload fromId toId
           = (st, [(tc.ws, Msg.offer ts payload fromId toId)]) ∧
       handleAnswer isOpen st ts payload fromId toId
           = (st, [(tc.ws, Msg.answer ts payload fromId toId)]) ∧
       handleIceCandidate isOpen st ts payload fromId toId
           = (st, [(tc.ws, Msg.iceCandidate ts payload fromId toId)])) ∧
    (mapGet st.clients toId = none →
       handleOffer isOpen st ts payload fromId toId = (st, []) ∧
       handleAnswer isOpen st ts payload fromId toId = (st, []) ∧
       handleIceCandidate isOpen st ts payload fromId toId = (st, [])) := by
  constructor
  · intro tc hget
    refine ⟨?_, ?_, ?_⟩ <;>
      simp [handleOffer, handleAnswer, handleIceCandidate, hget, send, hAll]
  · intro hget
    refine ⟨?_, ?_, ?_⟩ <;>
      simp [handleOffer, handleAnswer, handleIceCandidate, hget]

/-- Witness for `signaling_forward_spec`: delivery to registered "c1"
and silent drop for unknown "zz". -/
theorem signaling_forward_spec_witness :
    (handleOffer (fun _ => true) stHostClient (some 4) (some "sdp")
        (some "h1") (some "c1")
      = (stHostClient, [(7, Msg.offer (some 4) (some "sdp") (some "h1") (some "c1"))])) ∧
    (handleOffer (fun _ => true) stHostClient (some 4) (some "sdp")
        (some "h1") (some "zz") = (stHostClient, [])) := by
  constructor
  · exact ((signaling_forward_spec (fun _ => true) stHostClient (some 4)
      (some "sdp") (some "h1") (some "c1") (fun _ => rfl)).1 clientC1 (by decide)).1
  · exact ((signaling_forward_spec (fun _ => true) stHostClient (some 4)
      (some "sdp") (some "h1") (some "zz") (fun _ => rfl)).2 (by decide)).1

/-! ### Claim C6 -/

/-- C6: close is idempotent — running the disconnect path for a
transport with no matching participant (already removed) is a complete
no-op: no broadcast, no error, both maps unchanged. -/
theorem disconnect_idempotent (isOpen : Nat → Bool) (st : ServerState)
    (w now : Nat) (h : ∀ p ∈ st.clients, p.2.ws ≠ w) :
    handleDisconnect isOpen st w now = (st, []) := by
  have hf : st.clients.find? (fun p => decide (p.2.ws = w)) = none := by
    rw [List.find?_eq_none]
    intro p hp
    simp [h p hp]
  simp [handleDisconnect, hf]

/-- Witness for `disconnect_idempotent`: a second close of transport 9,
which has no registered participant. -/
theorem disconnect_idempotent_witness :
    handleDisconnect (fun _ => true) stHostClient 9 4 = (stHostClient, []) :=
  disconnect_idempotent (fun _ => true) stHostClient 9 4 (by decide)

/-! ### Claim C5 -/

/-- C5: when the transport of a registered host closes (or it sends
DISCONNECT), every participant registered with role CLIENT at that
moment receives exactly one DEVICE_OFFLINE carrying the host's device
with `online := false` and `lastSeen` set to the close time; the host is
deleted from both maps; and any subsequent GET_DEVICES reply excludes
that device. -/
theorem host_disconnect_spec (isOpen : Nat → Bool) (st : ServerState)
    (w now : Nat) (hid : Option String) (c : Client) (d : Device)
    (hAll : ∀ ww, isOpen ww = true)
    (hf : st.clients.find? (fun p => decide (p.2.ws = w)) = some (hid, c))
    (htype : c.type = Role.host) (hdev : c.device = some d)
    (hwf : ∀ p ∈ st.devices, p.2.deviceId = p.1) :
    (handleDisconnect isOpen st w now).1.clients = mapDelete st.clients hid ∧
    (handleDisconnect isOpen st w now).1.devices = mapDelete st.devices hid ∧
    mapGet (handleDisconnect isOpen st w now).1.clients hid = none ∧
    mapGet (handleDisconnect isOpen st w now).1.devices hid = none ∧
    (handleDisconnect isOpen st w now).2
      = (st.clients.filter (fun p => decide (p.2.type = Role.client))).map
          (fun p => (p.2.ws,
            Msg.deviceOffline (some now)
              { d with online := false, lastSeen := now })) ∧
    (∀ ws2 t2,
      handleGetDevices isOpen (handleDisconnect isOpen st w now).1 ws2 t2
        = ((handleDisconnect isOpen st w now).1,
           [(ws2, Msg.deviceList (some t2)
              ((mapDelete st.devices hid).map (·.2)))])) ∧
    (∀ dv ∈ (mapDelete st.devices hid).map (·.2), ¬ dv.deviceId = hid) := by
  have hred : handleDisconnect isOpen st w now
      = ({ st with clients := mapDelete st.clients hid,
                   devices := mapDelete st.devices hid },
         broadcastDeviceStatus isOpen st.clients
           { d with online := false, lastSeen := now } false now) := by
    unfold handleDisconnect
    split
    · rename_i heq
      rw [hf] at heq
      cases heq
    · rename_i id c' heq
      rw [hf] at heq
      have hpair := Option.some.inj heq
      have h1 : hid = id := congrArg Prod.fst hpair
      have h2 : c = c' := congrArg Prod.snd hpair
      subst h1
      subst h2
      rw [htype, hdev]
  refine ⟨?_, ?_, ?_, ?_, ?_, ?_, ?_⟩
  · rw [hred]
  · rw [hred]
  · rw [hred]
    exact mapGet_mapDelete_self _ _
  · rw [hred]
    exact mapGet_mapDelete_self _ _
  · rw [hred]
    rw [broadcastDeviceStatus_eq isOpen st.clients _ false now hAll]
    simp
  · intro ws2 t2
    rw [hred]
    simp [handleGetDevices, send, hAll ws2]
  · intro dv hdv
    rcases List.mem_map.mp hdv with ⟨p, hp, hdp⟩
    rcases List.mem_filter.mp hp with ⟨hp', hcond⟩
    have hne : ¬ p.1 = hid := by simpa using hcond
    rw [← hdp, hwf p hp']
    exact hne

/-- Witness for `host_disconnect_spec`: host "h1" (transport 5) closes
at time 3; its device is deleted and client "c1" gets the offline
broadcast. -/
theorem host_disconnect_spec_witness :
    (handleDisconnect (fun _ => true) stHostClient 5 3).1.devices
        = mapDelete stHostClient.devices (some "h1") ∧
    (handleDisconnect (fun _ => true) stHostClient 5 3).2
      = (stHostClient.clients.filter
            (fun p => decide (p.2.type = Role.client))).map
          (fun p => (p.2.ws, Msg.deviceOffline (some 3)
              { devH1 with online := false, lastSeen := 3 })) := by
  have h := host_disconnect_spec (fun _ => true) stHostClient 5 3 (some "h1")
    hostClient1 devH1 (fun _ => rfl) (by decide) rfl rfl (by decide)
  exact ⟨h.2.1, h.2.2.2.2.1⟩

/-! ### Claim C7 -/

/-- C7 counterexample: an inbound OFFER carrying `timestamp = 5`,
handled by the server at capture time 100, is forwarded to "c1" still
carrying `timestamp = 5` — not the server's capture time at the moment
of sending. -/
theorem forwarded_timestamp_cex :
    (handleFrame (fun _ => true) stHostClient 5
        (Frame.msg (Msg.offer (some 5) (some "sdp") (some "h1") (some "c1")))
        100).2
      = [(7, Msg.offer (some 5) (some "sdp") (some "h1") (some "c1"))] ∧
    (Msg.offer (some 5) (some "sdp") (some "h1")
        (some "c1")).timestampOf ≠ some 100 := by
  decide

/-- C7 (amended): every message the server sends while handling a frame
either carries a `timestamp` equal to the server's capture time for that
frame (true of all replies, broadcasts, and the reconstructed forwarded
CONNECT_REQUEST) or is the inbound frame itself forwarded verbatim
(OFFER/ANSWER/ICE_CANDIDATE, which keep the sender's original
timestamp). -/
theorem outbound_timestamp_amended (isOpen : Nat → Bool)
    (st : ServerState) (ws : Nat) (f : Frame) (now : Nat) :
    ∀ out ∈ (handleFrame isOpen st ws f now).2,
      out.2.timestampOf = some now ∨ Frame.msg out.2 = f := by
  intro out hm
  cases f with
  | unparsable =>
    left
    simp only [handleFrame, sendError] at hm
    rw [mem_send _ _ _ _ hm]
    rfl
  | msg m =>
    cases m with
    | registerHost ts dId dn pl =>
      simp only [handleFrame, handleMessage, handleRegisterHost] at hm
      rcases List.mem_append.mp hm with h1 | h2
      · left
        rw [mem_send _ _ _ _ h1]
        rfl
      · left
        rw [mem_broadcastDeviceStatus _ _ _ _ _ _ h2]
        rfl
    | registerClient ts cid =>
      simp only [handleFrame, handleMessage, handleRegisterClient] at hm
      left
      rw [mem_send _ _ _ _ hm]
      rfl
    | getDevices ts =>
      simp only [handleFrame, handleMessage, handleGetDevices] at hm
      left
      rw [mem_send _ _ _ _ hm]
      rfl
    | connectRequest ts target cid =>
      left
      simp only [handleFrame, handleMessage] at hm
      cases hget : mapGet st.clients target with
      | none =>
        simp only [handleConnectRequest, hget, sendError] at hm
        rw [mem_send _ _ _ _ hm]
        rfl
      | some tc =>
        by_cases htc : tc.type = Role.host
        · simp only [handleConnectRequest, hget] at hm
          rw [if_neg (fun hh => hh htc)] at hm
          rcases List.mem_append.mp hm with h1 | h2
          · rw [mem_send _ _ _ _ h1]
            rfl
          · rw [mem_send _ _ _ _ h2]
            rfl
        · simp only [handleConnectRequest, hget, sendError] at hm
          rw [if_pos htc] at hm
          rw [mem_send _ _ _ _ hm]
          rfl
    | offer ts payload fromId toId =>
      simp only [handleFrame, handleMessage, handleOffer] at hm
      cases hget : mapGet st.clients toId with
      | none =>
        rw [hget] at hm
        cases hm
      | some tc =>
        rw [hget] at hm
        right
        rw [mem_send _ _ _ _ hm]
    | answer ts payload fromId toId =>
      simp only [handleFrame, handleMessage, handleAnswer] at hm
      cases hget : mapGet st.clients toId with
      | none =>
        rw [hget] at hm
        cases hm
      | some tc =>
        rw [hget] at hm
        right
        rw [mem_send _ _ _ _ hm]
    | iceCandidate ts payload fromId toId =>
      simp only [handleFrame, handleMessage, handleIceCandidate] at hm
      cases hget : mapGet st.clients toId with
      | none =>
        rw [hget] at hm
        cases hm
      | some tc =>
        rw [hget] at hm
        right
        rw [mem_send _ _ _ _ hm]
    | disconnect ts =>
      left
      simp only [handleFrame, handleMessage] at hm
      cases hfind : st.clients.find? (fun p => decide (p.2.ws = ws)) with
      | none =>
        simp only [handleDisconnect, hfind] at hm
        cases hm
      | some pc =>
        rcases pc with ⟨id1, cid1, cws1, ctype1, cdev1⟩
        cases ctype1 with
        | host =>
          cases cdev1 with
          | none =>
            simp only [handleDisconnect, hfind] at hm
            cases hm
          | some d =>
            simp only [handleDisconnect, hfind] at hm
            rw [mem_broadcastDeviceStatus _ _ _ _ _ _ hm]
            rfl
        | client =>
          simp only [handleDisconnect, hfind] at hm
          cases hm
    | authSuccess ts i => cases hm
    | deviceList ts ds => cases hm
    | deviceOnline ts dv => cases hm
    | deviceOffline ts dv => cases hm
    | connectionAccepted ts h => cases hm
    | error ts e dt => cases hm
    | unknown => cases hm

/-- Witness for `outbound_timestamp_amended`: the ERROR reply to an
unparsable frame at capture time 5 carries timestamp 5. -/
theorem outbound_timestamp_amended_witness :
    (Msg.error (some 5) "Invalid message format" none).timestampOf = some 5 ∨
    Frame.msg (Msg.error (some 5) "Invalid message format" none)
        = Frame.unparsable :=
  outbound_timestamp_amended (fun _ => true) ServerState.initial 1
    Frame.unparsable 5
    (1, Msg.error (some 5) "Invalid message format" none) (by decide)

/-! ### Claim C8 -/

theorem filter_authSuccess_broadcast (isOpen : Nat → Bool)
    (cls : List (Option String × Client)) (dev : Device) (b : Bool)
    (now : Nat) :
    (broadcastDeviceStatus isOpen cls dev b now).filter
        (fun q => isAuthSuccess q.2) = [] := by
  refine List.filter_eq_nil_iff.mpr ?_
  intro q hq
  rw [mem_broadcastDeviceStatus _ _ _ _ _ _ hq]
  cases b <;> simp [isAuthSuccess]

theorem nextUuid_step_mono (isOpen : Nat → Bool) (st : ServerState)
    (e : Event) : st.nextUuid ≤ (step isOpen st e).1.nextUuid := by
  have hdisc : ∀ w now,
      st.nextUuid ≤ (handleDisconnect isOpen st w now).1.nextUuid := by
    intro w now
    unfold handleDisconnect
    split
    · exact Nat.le_refl _
    · split
      · exact Nat.le_refl _
      · exact Nat.le_refl _
  rcases e with ⟨ws, f, now⟩ | ⟨ws, now⟩
  · cases f with
    | unparsable => exact Nat.le_refl _
    | msg m =>
      cases m with
      | registerHost ts dId dn pl => exact Nat.le_refl _
      | registerClient ts cid =>
        show st.nextUuid ≤ (handleRegisterClient isOpen st ws cid now).1.nextUuid
        simp only [handleRegisterClient]
        split <;> omega
      | getDevices ts => exact Nat.le_refl _
      | connectRequest ts target cid =>
        show st.nextUuid ≤ (handleConnectRequest isOpen st ws target cid now).1.nextUuid
        unfold handleConnectRequest
        split
        · exact Nat.le_refl _
        · split
          · exact Nat.le_refl _
          · exact Nat.le_refl _
      | offer ts p f t =>
        show st.nextUuid ≤ (handleOffer isOpen st ts p f t).1.nextUuid
        unfold handleOffer
        split <;> exact Nat.le_refl _
      | answer ts p f t =>
        show st.nextUuid ≤ (handleAnswer isOpen st ts p f t).1.nextUuid
        unfold handleAnswer
        split <;> exact Nat.le_refl _
      | iceCandidate ts p f t =>
        show st.nextUuid ≤ (handleIceCandidate isOpen st ts p f t).1.nextUuid
        unfold handleIceCandidate
        split <;> exact Nat.le_refl _
      | disconnect ts => exact hdisc ws now
      | authSuccess ts i => exact Nat.le_refl _
      | deviceList ts ds => exact Nat.le_refl _
      | deviceOnline ts dv => exact Nat.le_refl _
      | deviceOffline ts dv => exact Nat.le_refl _
      | connectionAccepted ts hI => exact Nat.le_refl _
      | error ts er dt => exact Nat.le_refl _
      | unknown => exact Nat.le_refl _
  · exact hdisc ws now

theorem stepGen_sound (isOpen : Nat → Bool) (st : ServerState) (e : Event) :
    stepGen st e = [] ∨
    (stepGen st e = [uuidv4 st.nextUuid] ∧
      (step isOpen st e).1.nextUuid = st.nextUuid + 1) := by
  rcases e with ⟨ws, f, now⟩ | ⟨ws, now⟩
  · cases f with
    | unparsable => exact Or.inl rfl
    | msg m =>
      cases m with
      | registerClient ts cid =>
        by_cases hc : isFalsy cid = true
        · refine Or.inr ⟨?_, ?_⟩
          · simp [stepGen, hc]
          · show (handleRegisterClient isOpen st ws cid now).1.nextUuid
                = st.nextUuid + 1
            simp [handleRegisterClient, hc]
        · left
          simp [stepGen, hc]
      | registerHost ts dId dn pl => exact Or.inl rfl
      | getDevices ts => exact Or.inl rfl
      | connectRequest ts target cid => exact Or.inl rfl
      | offer ts p f t => exact Or.inl rfl
      | answer ts p f t => exact Or.inl rfl
      | iceCandidate ts p f t => exact Or.inl rfl
      | disconnect ts => exact Or.inl rfl
      | authSuccess ts i => exact Or.inl rfl
      | deviceList ts ds => exact Or.inl rfl
      | deviceOnline ts dv => exact Or.inl rfl
      | deviceOffline ts dv => exact Or.inl rfl
      | connectionAccepted ts hI => exact Or.inl rfl
      | error ts er dt => exact Or.inl rfl
      | unknown => exact Or.inl rfl
  · exact Or.inl rfl

theorem runGenIds_lb (isOpen : Nat → Bool) (es : List Event) :
    ∀ (st : ServerState) (s : String), s ∈ runGenIds isOpen st es →
      ∃ m, st.nextUuid ≤ m ∧ s = uuidv4 m := by
  induction es with
  | nil => intro st s hs; cases hs
  | cons e es ih =>
    intro st s hs
    simp only [runGenIds] at hs
    rcases List.mem_append.mp hs with h1 | h2
    · rcases stepGen_sound isOpen st e with hg | ⟨hg, _⟩
      · rw [hg] at h1
        cases h1
      · rw [hg, List.mem_singleton] at h1
        exact ⟨st.nextUuid, Nat.le_refl _, h1⟩
    · rcases ih (step isOpen st e).1 s h2 with ⟨m, hm, hs'⟩
      exact ⟨m, Nat.le_trans (nextUuid_step_mono isOpen st e) hm, hs'⟩

theorem runGenIds_nodup (isOpen : Nat → Bool) (es : List Event) :
    ∀ st : ServerState, (runGenIds isOpen st es).Nodup := by
  induction es with
  | nil => intro st; exact List.nodup_nil
  | cons e es ih =>
    intro st
    simp only [runGenIds]
    rcases stepGen_sound isOpen st e with hg | ⟨hg, hstep⟩
    · rw [hg, List.nil_append]
      exact ih _
    · rw [hg, List.singleton_append, List.nodup_cons]
      refine ⟨?_, ih _⟩
      intro hmem
      rcases runGenIds_lb isOpen es (step isOpen st e).1 _ hmem with ⟨m, hm, hs⟩
      rw [hstep] at hm
      have := uuidv4_injective hs
      omega

/-- C8: every REGISTER_HOST/REGISTER_CLIENT is answered with exactly
one AUTH_SUCCESS carrying exactly the id that was registered: the
`deviceId` from a REGISTER_HOST; the supplied (JS-truthy) `clientId`
from a REGISTER_CLIENT that carries one; and for a REGISTER_CLIENT
without a (truthy) clientId, a freshly generated id that is non-empty
and — across any sequence of events — unique within the process
lifetime. -/
theorem registration_auth_success_spec :
    (∀ (isOpen : Nat → Bool) (st : ServerState) (ws : Nat)
        (dId dn pl : Option String) (now : Nat), isOpen ws = true →
      (handleRegisterHost isOpen st ws dId dn pl now).2.filter
          (fun q => isAuthSuccess q.2)
        = [(ws, Msg.authSuccess (some now) dId)]) ∧
    (∀ (isOpen : Nat → Bool) (st : ServerState) (ws : Nat)
        (cid : Option String) (now : Nat), isOpen ws = true →
      (handleRegisterClient isOpen st ws cid now).2
          = [(ws, Msg.authSuccess (some now)
              (some (resolvedClientId st cid)))] ∧
      ¬ resolvedClientId st cid = "" ∧
      (∀ s, cid = some s → ¬ s = "" → resolvedClientId st cid = s) ∧
      mapGet (handleRegisterClient isOpen st ws cid now).1.clients
          (some (resolvedClientId st cid))
        = some { id := some (resolvedClientId st cid), ws := ws,
                 type := Role.client, device := none }) ∧
    (∀ (isOpen : Nat → Bool) (st : ServerState) (es : List Event),
      (runGenIds isOpen st es).Nodup ∧
      ∀ s ∈ runGenIds isOpen st es, ¬ s = "") := by
  refine ⟨?_, ?_, ?_⟩
  · intro isOpen st ws dId dn pl now h
    simp only [handleRegisterHost]
    rw [List.filter_append, send_of_open _ _ _ h,
      filter_authSuccess_broadcast]
    simp [isAuthSuccess]
  · intro isOpen st ws cid now h
    refine ⟨?_, ?_, ?_, ?_⟩
    · simp only [handleRegisterClient]
      rw [send_of_open _ _ _ h]
      rfl
    · unfold resolvedClientId
      by_cases hf : isFalsy cid = true
      · rw [if_pos hf]
        exact uuidv4_ne_empty _
      · rw [if_neg hf]
        cases cid with
        | none => simp [isFalsy] at hf
        | some s =>
          simp only [isFalsy] at hf
          intro hgd
          simp only [Option.getD_some] at hgd
          exact hf (by simp [hgd])
    · intro s hs hsne
      subst hs
      simp [resolvedClientId, isFalsy, hsne]
    · simp only [handleRegisterClient]
      exact mapGet_mapSet_self _ _ _
  · intro isOpen st es
    refine ⟨runGenIds_nodup isOpen es st, ?_⟩
    intro s hs
    rcases runGenIds_lb isOpen es st s hs with ⟨m, _, hs'⟩
    rw [hs']
    exact uuidv4_ne_empty m

/-- Witness for `registration_auth_success_spec`. -/
theorem registration_auth_success_spec_witness :
    ((handleRegisterHost (fun _ => true) ServerState.initial 1 (some "h1")
        (some "Office-PC") (some "macos") 0).2.filter
          (fun q => isAuthSuccess q.2)
      = [(1, Msg.authSuccess (some 0) (some "h1"))]) ∧
    ((handleRegisterClient (fun _ => true) ServerState.initial 2
        (some "c1") 4).2
      = [(2, Msg.authSuccess (some 4)
          (some (resolvedClientId ServerState.initial (some "c1"))))]) := by
  constructor
  · exact registration_auth_success_spec.1 (fun _ => true) ServerState.initial
      1 (some "h1") (some "Office-PC") (some "macos") 0 rfl
  · exact (registration_auth_success_spec.2.1 (fun _ => true)
      ServerState.initial 2 (some "c1") 4 rfl).1

/-! ### Claim C9 -/

/-- C9: a REGISTER_CLIENT with `clientId = ""` is treated exactly like
one with the field absent: the connection is registered under a freshly
generated (non-empty) id, AUTH_SUCCESS carries that generated id, and no
participant is registered under the empty-string id. -/
theorem empty_clientId_fresh_uuid (isOpen : Nat → Bool) (st : ServerState)
    (ws now : Nat) :
    handleRegisterClient isOpen st ws (some "") now
        = handleRegisterClient isOpen st ws none now ∧
    (handleRegisterClient isOpen st ws (some "") now).2
        = send isOpen ws (Msg.authSuccess (some now) (some (uuidv4 st.nextUuid))) ∧
    uuidv4 st.nextUuid ≠ "" ∧
    mapGet (handleRegisterClient isOpen st ws (some "") now).1.clients
        (some (uuidv4 st.nextUuid))
      = some { id := some (uuidv4 st.nextUuid), ws := ws,
               type := Role.client, device := none } ∧
    mapGet (handleRegisterClient isOpen st ws (some "") now).1.clients (some "")
      = mapGet st.clients (some "") := by
  have hne : ¬ ((some "" : Option String) = some (uuidv4 st.nextUuid)) := by
    intro hh
    exact uuidv4_ne_empty st.nextUuid (Option.some.inj hh).symm
  refine ⟨?_, ?_, uuidv4_ne_empty _, ?_, ?_⟩
  · simp [handleRegisterClient, isFalsy]
  · simp [handleRegisterClient, isFalsy]
  · simp [handleRegisterClient, isFalsy, mapGet_mapSet_self]
  · simp [handleRegisterClient, isFalsy, mapGet_mapSet_ne _ _ _ _ hne]

/-! ### Claim C10 -/

/-- C10: one invocation of the disconnect path removes at most one
registry entry — exactly the first participant (in registration order)
whose stored transport matches; every other id keeps its participant and
device entries unchanged. -/
theorem disconnect_removes_first_only (isOpen : Nat → Bool)
    (st : ServerState) (w now : Nat) (id1 : Option String) (c1 : Client)
    (hf : st.clients.find? (fun p => decide (p.2.ws = w)) = some (id1, c1)) :
    (handleDisconnect isOpen st w now).1.clients = mapDelete st.clients id1 ∧
    ∀ k, ¬ k = id1 →
      mapGet (handleDisconnect isOpen st w now).1.clients k
          = mapGet st.clients k ∧
      mapGet (handleDisconnect isOpen st w now).1.devices k
          = mapGet st.devices k := by
  unfold handleDisconnect
  split
  · rename_i heq
    rw [hf] at heq
    cases heq
  · rename_i id c heq
    rw [hf] at heq
    have hpair := Option.some.inj heq
    have h1 : id1 = id := congrArg Prod.fst hpair
    have h2 : c1 = c := congrArg Prod.snd hpair
    subst h1
    subst h2
    split
    · exact ⟨rfl, fun k hk =>
        ⟨mapGet_mapDelete_ne _ _ _ hk, mapGet_mapDelete_ne _ _ _ hk⟩⟩
    · exact ⟨rfl, fun k hk => ⟨mapGet_mapDelete_ne _ _ _ hk, rfl⟩⟩

/-- Witness for `disconnect_removes_first_only`: transport 7 is
registered under "c1" and "c2"; closing it removes only "c1", and "c2"
survives untouched. -/
theorem disconnect_removes_first_only_witness :
    (handleDisconnect (fun _ => true) stTwoIds 7 3).1.clients
        = mapDelete stTwoIds.clients (some "c1") ∧
    mapGet (handleDisconnect (fun _ => true) stTwoIds 7 3).1.clients (some "c2")
        = mapGet stTwoIds.clients (some "c2") := by
  have h := disconnect_removes_first_only (fun _ => true) stTwoIds 7 3
    (some "c1")
    { id := some "c1", ws := 7, type := Role.client, device := none }
    (by decide)
  exact ⟨h.1, (h.2 (some "c2") (by decide)).1⟩

end Remoted
